import Mathlib

/-!
# Verification of the skincare recommendation core

Shallow embedding of the provider-failover and response-reconciliation
logic of the recommendation service:

* `get_filtered_products` embeds `RecommendationService._get_filtered_products`
  (src/app/services/recommendation_service.py, lines 134-143) faithfully: the
  service imports `Product` from src/app/models/product.py, where the
  `category` field is commented out (pydantic silently drops the `category=`
  keyword the catalog data passes), and it imports `SkinAnalysis` from
  src/app/models/recommendation.py, which has fields
  `suitable_skin_types`/`targets_concerns` but no `skin_type`/`concerns`;
  the attribute reads in the list comprehension therefore raise
  `AttributeError`, modelled by explicit `…_attr` accessors returning
  `Except`.
* `build_loop`, `build_response` embed `RecommendationService._build_response`
  (lines 157-190): the imported `ProductRecommendation` model requires
  `match_breakdown` and `justification`, which are never passed (the passed
  `personalized_reason`/`key_benefits_for_user` are ignored extras), so the
  construction raises `ValidationError` for every entry that passes the id
  checks, before the `_track_recommendation` call on line 182 is reached.
* `analyze_skin` and `LLMService.init` embed `LLMService.analyze_skin` and
  `LLMService.__init__` (src/app/services/llm_service.py).
* `get_recommendations` embeds the orchestrator
  `RecommendationService.get_recommendations` (lines 63-108).

LLM providers and the Redis analytics sink are external collaborators: a
provider call is modelled by its outcome (`Except` of an error message or a
structured payload), and the sink by an explicit state threaded through the
pipeline.  Python dict truthiness tests (`if not rec.get("product_id")`,
`any([image_data, image_url, user_concerns])`) are modelled by explicit
`truthy…` functions on `Option`.
-/

namespace Skincare

/-! ## Data model (src/app/models) -/

/-- A Python exception other than `ValidationError` raised inside the
pipeline (caught by the blanket `except Exception`). -/
inductive PyError where
  | attributeError : PyError
  deriving Repr, DecidableEq

/-- A catalog product as the imported model actually defines it
(src/app/models/product.py), restricted to the fields the core touches.
The `category` field is commented out there, and pydantic drops the
`category="face_cream"` keyword that src/app/data/products.py passes, so a
runtime `Product` object has no category attribute. -/
structure Product where
  id : String
  name : String
  suitable_skin_types : List String
  targets_concerns : List String
  deriving Repr, DecidableEq

/-- `p.category`: the imported `Product` model has no `category` field, so
the attribute read in `_get_filtered_products` raises `AttributeError`. -/
def Product.category_attr (_ : Product) : Except PyError String :=
  .error .attributeError

/-- A validated skin analysis as the imported model defines it
(src/app/models/recommendation.py, the variant the service imports): the
skin type lives in `suitable_skin_types`, the concern list in
`targets_concerns`. -/
structure SkinAnalysis where
  suitable_skin_types : String
  targets_concerns : List String
  age_category : String
  deriving Repr, DecidableEq

/-- `skin_analysis.skin_type`: the imported `SkinAnalysis` model has no
`skin_type` attribute (the field is named `suitable_skin_types`), so the
read in `_get_filtered_products` raises `AttributeError`. -/
def SkinAnalysis.skin_type_attr (_ : SkinAnalysis) : Except PyError String :=
  .error .attributeError

/-- `skin_analysis.concerns`: the imported `SkinAnalysis` model has no
`concerns` attribute (the field is named `targets_concerns`), so the read
in `_get_filtered_products` raises `AttributeError`. -/
def SkinAnalysis.concerns_attr (_ : SkinAnalysis) :
    Except PyError (List String) :=
  .error .attributeError

/-- One candidate recommendation entry of the raw generator payload: a JSON
object read with `rec.get(...)`; `none` models an absent key.  JSON numbers
are modelled as rationals. -/
structure RecEntry where
  product_id : Option String
  match_score : Option ℚ
  personalized_reason : Option String
  key_benefits_for_user : Option (List String)
  deriving Repr, DecidableEq

/-- `ProductMatch` (src/app/models/recommendation.py), the score breakdown
the imported `ProductRecommendation` model requires. -/
structure ProductMatch where
  suitable_skin_types : ℚ
  concerns : ℚ
  age : ℚ
  deriving Repr, DecidableEq

/-- `ProductRecommendation` as the service imports it
(src/app/models/recommendation.py): `match_breakdown` and `justification`
are required fields.  `_build_response` never passes them, so no value of
this type is ever constructed at runtime. -/
structure ProductRecommendation where
  product : Product
  match_score : ℚ
  match_breakdown : ProductMatch
  justification : String
  expected_benefits : List String
  deriving Repr, DecidableEq

/-- A raw JSON field of the generator payload as seen by pydantic coercion:
absent, present but ill-formed, or present and well-formed. -/
inductive RawField (α : Type) where
  | missing : RawField α
  | invalid : RawField α
  | valid : α → RawField α
  deriving Repr, DecidableEq

/-- Pydantic coercion of a raw field: an absent key falls back to the
default, an ill-formed value raises `ValidationError`. -/
def RawField.parse {α : Type} (dflt : α) : RawField α → Option α
  | .missing => some dflt
  | .invalid => none
  | .valid a => some a

/-- `RoutineAdvice` (src/app/models/recommendation.py). -/
structure RoutineAdvice where
  morning : List String
  evening : List String
  weekly : List String
  deriving Repr, DecidableEq

/-- `IngredientsGuidance` (src/app/models/recommendation.py). -/
structure IngredientsGuidance where
  beneficial : List String
  avoid : List String
  deriving Repr, DecidableEq

/-- The raw generator payload (`recommendations_data`), as read by
`_build_response` with `.get(key, default)`.  The `general_skincare_tips`
value is read and passed on, but the imported `RecommendationResponse`
model has no such field and ignores it as an extra. -/
structure RecommendationsData where
  recommendations : Option (List RecEntry)
  general_skincare_tips : Option (List String)
  routine_advice : RawField RoutineAdvice
  ingredients_guidance : RawField IngredientsGuidance
  deriving Repr, DecidableEq

/-- `RecommendationResponse` as the service imports it
(src/app/models/recommendation.py): skin analysis, recommendations
(default empty), routine advice and ingredients guidance.  There is no
`general_skincare_tips` field — the keyword `_build_response` passes is
dropped as an ignored extra. -/
structure RecommendationResponse where
  skin_analysis : SkinAnalysis
  recommendations : List ProductRecommendation
  routine_advice : RoutineAdvice
  ingredients_guidance : IngredientsGuidance
  deriving Repr, DecidableEq

/-! ## Python truthiness helpers -/

/-- Truthiness of an optional string: `None` and `""` are falsy. -/
def truthyOptStr : Option String → Bool
  | none => false
  | some s => !(s == "")

/-- Truthiness of optional image bytes: `None` and `b""` are falsy. -/
def truthyBytes : Option (List Nat) → Bool
  | none => false
  | some b => !b.isEmpty

/-- Truthiness of an optional list: `None` and `[]` are falsy. -/
def truthyList : Option (List String) → Bool
  | none => false
  | some l => !l.isEmpty

/-! ## Analytics sink (`_init_redis`, `_track_recommendation`, `get_analytics`) -/

/-- The Redis analytics sink: `connected = false` models an absent client
(`self.redis_client is None`), `increment_fails` models a `RedisError`
raised by the increment pipeline.  Counters are an association list of
per-product counts plus a single running daily count. -/
structure Sink where
  connected : Bool
  increment_fails : Bool
  product_counts : List (String × Nat)
  daily_count : Nat
  deriving Repr, DecidableEq

/-- `hincrby`: bump a key's count in the association list, inserting it at
the end when absent. -/
def bump_count : List (String × Nat) → String → List (String × Nat)
  | [], pid => [(pid, 1)]
  | (k, n) :: rest, pid =>
      if k == pid then (k, n + 1) :: rest else (k, n) :: bump_count rest pid

/-- `_track_recommendation` (lines 192-203): a no-op without a client; a
`RedisError` is caught and logged, leaving the counters unchanged; otherwise
both the product counter and the daily counter are incremented.  (In the
runnable flow this method is never reached — see `build_loop`.) -/
def track_recommendation (sink : Sink) (product_id : String) : Sink :=
  if !sink.connected then sink
  else if sink.increment_fails then sink
  else { sink with
         product_counts := bump_count sink.product_counts product_id
         daily_count := sink.daily_count + 1 }

/-- `_init_redis` (lines 44-61): a client is only returned when the redis
library is importable, a redis URL is configured and the connection ping
succeeds; every failure degrades to no client. -/
def init_redis (redis_available : Bool) (redis_url : Option String)
    (connect_ok : Bool) : Sink :=
  if redis_available && truthyOptStr redis_url && connect_ok then
    { connected := true, increment_fails := false
      product_counts := [], daily_count := 0 }
  else
    { connected := false, increment_fails := false
      product_counts := [], daily_count := 0 }

/-- Aggregated analytics data (`RecommendationAnalytics`), with product
stats as (product id, count) pairs sorted by descending count. -/
structure RecommendationAnalytics where
  product_stats : List (String × Nat)
  daily_stats : List (String × Nat)
  deriving Repr, DecidableEq

/-- `_parse_product_counts`: keep the counters whose id belongs to the
catalog, sorted by count in descending order (stable, like Python's
`sorted`). -/
def parse_product_counts (catalog : List Product)
    (counts : List (String × Nat)) : List (String × Nat) :=
  (counts.filter (fun kv => catalog.any (fun p => p.id == kv.1))).mergeSort
    (fun a b => Nat.ble b.2 a.2)

/-- `get_analytics` (lines 205-224): empty analytics without a client or
when the read raises a `RedisError`; otherwise the parsed counters. -/
def get_analytics (catalog : List Product) (sink : Sink)
    (read_fails : Bool) : RecommendationAnalytics :=
  if !sink.connected then ⟨[], []⟩
  else if read_fails then ⟨[], []⟩
  else
    ⟨parse_product_counts catalog sink.product_counts,
     if sink.daily_count == 0 then [] else [("today", sink.daily_count)]⟩

/-! ## Catalog filter (`_get_filtered_products`, lines 134-143) -/

/-- The condition of the list comprehension in `_get_filtered_products`,
evaluated left to right with Python short-circuiting: `p.category ==
"face_cream" and skin_analysis.skin_type in p.suitable_skin_types and
any(c in p.targets_concerns for c in skin_analysis.concerns)`.  The very
first attribute read, `p.category`, raises `AttributeError`. -/
def comprehension_cond (skin_analysis : SkinAnalysis) (p : Product) :
    Except PyError Bool :=
  match Product.category_attr p with
  | .error e => .error e
  | .ok cat =>
      if !(cat == "face_cream") then .ok false
      else
        match SkinAnalysis.skin_type_attr skin_analysis with
        | .error e => .error e
        | .ok st =>
            if !(p.suitable_skin_types.contains st) then .ok false
            else
              match SkinAnalysis.concerns_attr skin_analysis with
              | .error e => .error e
              | .ok cs =>
                  .ok (cs.any (fun c => p.targets_concerns.contains c))

/-- `_get_filtered_products`: the list comprehension over the catalog,
propagating the first exception its condition raises.  On an empty catalog
the condition is never evaluated and the empty list is returned; on any
non-empty catalog the first product's `p.category` read raises. -/
def get_filtered_products (skin_analysis : SkinAnalysis) :
    List Product → Except PyError (List Product)
  | [] => .ok []
  | p :: rest =>
      match comprehension_cond skin_analysis p with
      | .error e => .error e
      | .ok b =>
          match get_filtered_products skin_analysis rest with
          | .error e => .error e
          | .ok tail => .ok (if b then p :: tail else tail)

/-- Modelled from the spec: a catalog product as section 3 of the spec
describes it, carrying the category attribute that the runtime model is
missing.  Used only to state what the Catalog Filter was meant to
compute. -/
structure SpecProduct where
  id : String
  category : String
  suitable_skin_types : List String
  targets_concerns : List String
  deriving Repr, DecidableEq

/-- Modelled from the spec: the Catalog Filter of section 4.2 — the
behavior `_get_filtered_products` was meant to have but cannot reach,
since its attribute reads raise: keep the products whose category is the
face-cream category, whose applicable skin types contain the analysis skin
type and whose targeted concerns meet the concern list. -/
def spec_filtered_products (skin_type : String) (concerns : List String)
    (ps : List SpecProduct) : List SpecProduct :=
  ps.filter (fun p =>
    p.category == "face_cream" &&
    p.suitable_skin_types.contains skin_type &&
    concerns.any (fun c => p.targets_concerns.contains c))

/-! ## Reconciliation (`_build_response`, lines 157-190) -/

/-- `product_map` lookup: the dict comprehension `{p.id: p for p in
available_products}` lets a later product override an earlier one with the
same id, so `.get` returns the last matching product. -/
def product_map (available_products : List Product) (pid : String) :
    Option Product :=
  available_products.reverse.find? (fun p => p.id == pid)

/-- The `match_score` argument `_build_response` computes for the
`ProductRecommendation(...)` call: `min(max(rec.get("match_score", 0), 0),
100)`.  The call itself then raises, so this value never reaches a
response. -/
def clamped_score (rec : RecEntry) : ℚ :=
  min (max (rec.match_score.getD 0) 0) 100

/-- Whether a candidate entry passes the two id checks of the loop: a
truthy `product_id` that maps to a product of the offered subset. -/
def id_checks_pass (available_products : List Product) (rec : RecEntry) :
    Bool :=
  truthyOptStr rec.product_id &&
    (product_map available_products (rec.product_id.getD "")).isSome

/-- Failure of a pydantic model construction (`ValidationError`). -/
inductive BuildError where
  | validationError : BuildError
  deriving Repr, DecidableEq

/-- The reconciliation loop of `_build_response`, in LLM order: entries
with an absent or falsy `product_id` are skipped, entries whose id is not
in the offered subset are skipped; for an entry passing both checks the
code evaluates the constructor arguments (`clamped_score rec` among them)
and then `ProductRecommendation(...)` raises `ValidationError` — the
imported model requires `match_breakdown` and `justification`, which are
never passed (the passed `personalized_reason` and `key_benefits_for_user`
are ignored extras).  The `_track_recommendation` call on line 182 sits
after this construction and is therefore never reached. -/
def build_loop (available_products : List Product) :
    List RecEntry → Except BuildError (List ProductRecommendation)
  | [] => .ok []
  | rec :: rest =>
      if truthyOptStr rec.product_id then
        match product_map available_products (rec.product_id.getD "") with
        | some _ => .error .validationError
        | none => build_loop available_products rest
      else build_loop available_products rest

/-- `_build_response`: truncate the candidate list to its first 3 entries,
run the loop (whose first accepted entry raises), then construct the
`RecommendationResponse`; coercion of the raw `routine_advice` and
`ingredients_guidance` values can raise `ValidationError`, while the
passed `general_skincare_tips` is dropped as an ignored extra.  The
analytics sink is returned alongside the outcome; since the tracking call
is never reached, it always comes back unchanged. -/
def build_response (skin_analysis : SkinAnalysis)
    (recommendations_data : RecommendationsData)
    (available_products : List Product) (sink : Sink) :
    Except BuildError RecommendationResponse × Sink :=
  match build_loop available_products
      ((recommendations_data.recommendations.getD []).take 3) with
  | .error e => (.error e, sink)
  | .ok recs =>
      match RawField.parse ⟨[], [], []⟩ recommendations_data.routine_advice,
            RawField.parse ⟨[], []⟩
              recommendations_data.ingredients_guidance with
      | some ra, some ig =>
          (Except.ok
            { skin_analysis := skin_analysis
              recommendations := recs
              routine_advice := ra
              ingredients_guidance := ig }, sink)
      | _, _ => (Except.error BuildError.validationError, sink)

/-! ## LLM service (src/app/services/llm_service.py) -/

/-- The raw JSON payload of a skin-analysis provider call, restricted to
the keys `SkinAnalysis(**analysis_data)` validates; `none` models an
absent key.  The imported model's field names apply:
`suitable_skin_types`, `targets_concerns`, `age_category`. -/
structure AnalysisData where
  suitable_skin_types : Option String
  targets_concerns : Option (List String)
  age_category : Option String
  deriving Repr, DecidableEq

/-- The skin-type enumeration values (`SkinType`). -/
def skinTypeValues : List String :=
  ["dry", "oily", "combination", "sensitive", "normal"]

/-- The skin-concern enumeration values (`SkinConcern`). -/
def skinConcernValues : List String :=
  ["acne", "wrinkles", "dark_spots", "redness", "dullness", "large_pores",
   "dehydration", "eczema", "sensitivity", "moisturization", "anti_aging",
   "anti_oxidant"]

/-- The age-category enumeration values (`AgeCategory` of
src/app/models/recommendation.py). -/
def ageCategoryValues : List String :=
  ["0-12", "13-19", "20-35", "36-50", "50+"]

/-- `SkinAnalysis(**analysis_data)`: pydantic validation of the untrusted
provider payload against the imported model.  `suitable_skin_types` and
`age_category` must be present and valid enum members.  `targets_concerns`
defaults to the empty list when the key is absent — the custom validator
does not run on the default — while a provided list must be non-empty
(validator), within `max_items=5` and enum-valued, and is deduplicated. -/
def parse_skin_analysis (d : AnalysisData) : Option SkinAnalysis :=
  match d.suitable_skin_types, d.age_category with
  | some st, some ac =>
      if skinTypeValues.contains st && ageCategoryValues.contains ac then
        match d.targets_concerns with
        | none =>
            some { suitable_skin_types := st, targets_concerns := []
                   age_category := ac }
        | some cs =>
            if !cs.isEmpty && decide (cs.length ≤ 5)
                && cs.all (fun c => skinConcernValues.contains c) then
              some { suitable_skin_types := st, targets_concerns := cs.dedup
                     age_category := ac }
            else none
      else none
  | _, _ => none

/-- The outcome of one provider's `analyze_image` call for the request at
hand: either the parsed JSON payload or a raised exception's message. -/
def ProviderOutcome : Type := Except String AnalysisData

/-- The LLM service state after construction: the ordered dict of
initialized providers, each with its outcome for the request at hand, and
the selected primary provider name. -/
structure LLMService where
  providers : List (String × ProviderOutcome)
  primary_provider : String

/-- `self.providers[name]` lookup (`name in self.providers` membership). -/
def find_provider (svc : LLMService) (name : String) : Option ProviderOutcome :=
  (svc.providers.find? (fun p => p.1 == name)).map (fun p => p.2)

/-- The fallback loop of `analyze_skin`: walk the providers in dict order,
skip the primary (already tried), return the first success. -/
def first_fallback_success (primary : String) :
    List (String × ProviderOutcome) → Option AnalysisData
  | [] => none
  | (name, res) :: rest =>
      if name == primary then first_fallback_success primary rest
      else
        match res with
        | .ok d => some d
        | .error _ => first_fallback_success primary rest

/-- Number of provider calls the fallback loop makes: each non-primary
provider is called until one succeeds. -/
def fallback_calls (primary : String) :
    List (String × ProviderOutcome) → Nat
  | [] => 0
  | (name, res) :: rest =>
      if name == primary then fallback_calls primary rest
      else
        match res with
        | .ok _ => 1
        | .error _ => 1 + fallback_calls primary rest

/-- The aggregate error raised when every provider failed. -/
def allFailedMsg : String :=
  "All LLM providers failed. Please check your configuration and try again."

/-- `LLMService.analyze_skin` (lines 151-189): try the primary provider
first; on an exception, try every other provider in dict order and return
the first success; raise the aggregate error when all fail (also when the
primary name is not among the providers, since the fallback loop only runs
inside the handler of the primary's exception). -/
def analyze_skin (svc : LLMService) : Except String AnalysisData :=
  match find_provider svc svc.primary_provider with
  | some (.ok d) => .ok d
  | some (.error _) =>
      match first_fallback_success svc.primary_provider svc.providers with
      | some d => .ok d
      | none => .error allFailedMsg
  | none => .error allFailedMsg

/-- Number of provider calls `analyze_skin` makes. -/
def analyze_skin_calls (svc : LLMService) : Nat :=
  match find_provider svc svc.primary_provider with
  | some (.ok _) => 1
  | some (.error _) => 1 + fallback_calls svc.primary_provider svc.providers
  | none => 0

/-! ## LLM service construction (`LLMService.__init__`, lines 122-149) -/

/-- The configuration keys `__init__` reads (src/app/config.py). -/
structure Settings where
  openai_api_key : Option String
  custom_llm_api_key : Option String
  primary_llm_provider : String

/-- The environment of construction: whether each guarded provider
constructor succeeds (its exception is caught and logged), and the
provider's outcome for the request at hand. -/
structure ProviderEnv where
  openai_init_ok : Bool
  custom_init_ok : Bool
  openai_outcome : ProviderOutcome
  custom_outcome : ProviderOutcome

/-- The providers dict built by `__init__`: `"openai"` is added when its
API key is truthy and its constructor succeeds, then `"custom"` likewise;
dict iteration order is insertion order. -/
def init_providers (s : Settings) (env : ProviderEnv) :
    List (String × ProviderOutcome) :=
  (if truthyOptStr s.openai_api_key && env.openai_init_ok then
     [("openai", env.openai_outcome)] else [])
  ++ (if truthyOptStr s.custom_llm_api_key && env.custom_init_ok then
     [("custom", env.custom_outcome)] else [])

/-- The `ValueError` raised by `__init__` when no provider is available. -/
inductive InitError where
  | noProviders : InitError
  deriving Repr, DecidableEq

/-- `LLMService.__init__`: raise when the providers dict is empty;
otherwise select the configured primary name when present, falling back to
the first provider in dict order. -/
def LLMService.init (s : Settings) (env : ProviderEnv) :
    Except InitError LLMService :=
  if (init_providers s env).isEmpty then .error .noProviders
  else
    .ok { providers := init_providers s env
          primary_provider :=
            if ((init_providers s env).find?
                (fun p => p.1 == s.primary_llm_provider)).isSome
            then s.primary_llm_provider
            else (((init_providers s env).head?.map (fun p => p.1)).getD "") }

/-! ## Orchestrator (`get_recommendations`, lines 63-108) -/

/-- The error surfaced by `get_recommendations`, by raise site:
`inputError` is the `ValueError` of the input check (outside the handler),
`invalidData` the `ValueError("Invalid data received from services")`
raised on a pydantic `ValidationError`, and `serviceUnavailable` the
`ServiceError("Recommendation service unavailable")` wrapping every other
exception — among them the `AttributeError` from the catalog filter and
the aggregate provider failure. -/
inductive OrchError where
  | inputError : String → OrchError
  | invalidData : OrchError
  | serviceUnavailable : OrchError
  deriving Repr, DecidableEq

/-- The observable outcome of one orchestrated request: the response or
error, the analytics sink state afterwards, and the number of LLM calls
made (provider `analyze_image` calls plus the generator call). -/
structure OrchResult where
  result : Except OrchError RecommendationResponse
  sink : Sink
  llm_calls : Nat

/-- The message of the input-validation `ValueError` (line 88). -/
def inputErrorMsg : String :=
  "Either image_data, image_url or user_concerns must be provided"

/-- `_analyze_skin` (lines 110-132): call the LLM service only when an
image (bytes or URL) is given; otherwise the analysis payload stays the
empty dict.  (The merge with `user_concerns` is commented out in the
source.) -/
def analyze_skin_step (llm : LLMService) (image_data : Option (List Nat))
    (image_url : Option String) : Except String AnalysisData :=
  if truthyBytes image_data || truthyOptStr image_url then analyze_skin llm
  else .ok { suitable_skin_types := none, targets_concerns := none
             age_category := none }

/-- Number of provider calls `_analyze_skin` makes. -/
def analyze_skin_step_calls (llm : LLMService) (image_data : Option (List Nat))
    (image_url : Option String) : Nat :=
  if truthyBytes image_data || truthyOptStr image_url
  then analyze_skin_calls llm else 0

/-- `RecommendationService.get_recommendations`: validate the input, run
skin analysis when an image is given (an absent image leaves the analysis
payload empty), validate the analysis, filter the catalog (whose
`AttributeError` the blanket handler wraps), call the generator (whose
outcome `gen` is an external collaborator parameter), and assemble the
response.  `ValidationError`s become `invalidData`, every other exception
becomes `serviceUnavailable`. -/
def get_recommendations (llm : LLMService)
    (gen : Except String RecommendationsData) (catalog : List Product)
    (sink : Sink) (image_data : Option (List Nat)) (image_url : Option String)
    (user_concerns : Option (List String)) : OrchResult :=
  if !(truthyBytes image_data || truthyOptStr image_url
       || truthyList user_concerns) then
    { result := .error (.inputError inputErrorMsg), sink := sink, llm_calls := 0 }
  else
    match analyze_skin_step llm image_data image_url with
    | .error _ =>
        { result := .error .serviceUnavailable, sink := sink
          llm_calls := analyze_skin_step_calls llm image_data image_url }
    | .ok analysis_data =>
        match parse_skin_analysis analysis_data with
        | none =>
            { result := .error .invalidData, sink := sink
              llm_calls := analyze_skin_step_calls llm image_data image_url }
        | some skin_analysis =>
            match get_filtered_products skin_analysis catalog with
            | .error _ =>
                { result := .error .serviceUnavailable, sink := sink
                  llm_calls := analyze_skin_step_calls llm image_data image_url }
            | .ok face_creams =>
                match gen with
                | .error _ =>
                    { result := .error .serviceUnavailable, sink := sink
                      llm_calls :=
                        analyze_skin_step_calls llm image_data image_url + 1 }
                | .ok recommendations_data =>
                    match build_response skin_analysis recommendations_data
                        face_creams sink with
                    | (.ok resp, sink2) =>
                        { result := .ok resp, sink := sink2
                          llm_calls :=
                            analyze_skin_step_calls llm image_data image_url + 1 }
                    | (.error _, sink2) =>
                        { result := .error .invalidData, sink := sink2
                          llm_calls :=
                            analyze_skin_step_calls llm image_data image_url + 1 }

/-! ## Helper lemmas -/

/-- Payload extraction from a provider outcome. -/
def outcome_ok : ProviderOutcome → Option AnalysisData
  | .ok d => some d
  | .error _ => none

/-- The fallback loop returns the first success, in order, among the
non-primary providers. -/
theorem first_fallback_success_eq (primary : String)
    (l : List (String × ProviderOutcome)) :
    first_fallback_success primary l =
      (l.filter (fun p => !(p.1 == primary))).findSome?
        (fun p => outcome_ok p.2) := by
  induction l with
  | nil => rfl
  | cons q rest ih =>
      obtain ⟨name, res⟩ := q
      by_cases hname : (name == primary) = true
      · simp [first_fallback_success, hname, List.filter_cons, ih]
      · cases res <;>
          simp [first_fallback_success, hname, List.filter_cons,
            List.findSome?_cons, outcome_ok, ih]

/-- The outcome of `_build_response` (though not the sink it returns) is
independent of the incoming sink state — the sink is only passed
through. -/
theorem build_response_fst_congr (sa : SkinAnalysis)
    (data : RecommendationsData) (ps : List Product) (s1 s2 : Sink) :
    (build_response sa data ps s1).1 = (build_response sa data ps s2).1 := by
  unfold build_response
  cases build_loop ps ((data.recommendations.getD []).take 3) with
  | error e => rfl
  | ok recs =>
      dsimp only
      cases RawField.parse ⟨[], [], []⟩ data.routine_advice <;>
        cases RawField.parse ⟨[], []⟩ data.ingredients_guidance <;> rfl

/-! ## Concrete inputs used in the claim instances -/

/-- `prod_002` of the static catalog (src/app/data/products.py) as the
runtime object holds it: the `category="face_cream"` keyword the data
passes is dropped by the model. -/
def clearBalanceCream : Product :=
  { id := "prod_002", name := "ClearBalance Oil Control Cream"
    suitable_skin_types := ["oily", "combination"]
    targets_concerns := ["acne", "large_pores", "redness"] }

/-- `prod_001` of the static catalog: a dry-skin cream matching neither an
oily skin type nor the acne concern. -/
def hydraGlowCream : Product :=
  { id := "prod_001", name := "HydraGlow Intensive Moisturizer"
    suitable_skin_types := ["dry", "normal", "sensitive"]
    targets_concerns := ["dehydration", "wrinkles", "dullness"] }

/-- `prod_002` as the spec describes it, category included. -/
def specClearBalance : SpecProduct :=
  { id := "prod_002", category := "face_cream"
    suitable_skin_types := ["oily", "combination"]
    targets_concerns := ["acne", "large_pores", "redness"] }

/-- `prod_001` as the spec describes it, category included. -/
def specHydraGlow : SpecProduct :=
  { id := "prod_001", category := "face_cream"
    suitable_skin_types := ["dry", "normal", "sensitive"]
    targets_concerns := ["dehydration", "wrinkles", "dullness"] }

/-- A validated analysis of oily skin with the acne concern. -/
def oilyAcneAnalysis : SkinAnalysis :=
  { suitable_skin_types := "oily", targets_concerns := ["acne"]
    age_category := "20-35" }

/-- A disconnected sink (no Redis client). -/
def sinkOff : Sink :=
  { connected := false, increment_fails := false
    product_counts := [], daily_count := 0 }

/-- A connected, healthy sink with no recorded counts. -/
def sinkOn : Sink :=
  { connected := true, increment_fails := false
    product_counts := [], daily_count := 0 }

/-- The analysis payload returned by the succeeding provider in the
concrete scenarios. -/
def oilyPayload : AnalysisData :=
  { suitable_skin_types := some "oily", targets_concerns := some ["acne"]
    age_category := some "20-35" }

/-- A well-formed candidate entry referencing the given product id. -/
def entryFor (pid : String) : RecEntry :=
  { product_id := some pid, match_score := some 50
    personalized_reason := none, key_benefits_for_user := none }

/-- A candidate entry with no product identifier (always skipped). -/
def noIdEntry : RecEntry :=
  { product_id := none, match_score := some 90
    personalized_reason := none, key_benefits_for_user := none }

/-- The mocked candidate entry of the clamping test: `prod_002` with a
match score of -10. -/
def negScoreEntry : RecEntry :=
  { product_id := some "prod_002", match_score := some (-10)
    personalized_reason := none, key_benefits_for_user := none }

/-- A candidate entry carrying a match score of 150. -/
def highScoreEntry : RecEntry :=
  { product_id := some "prod_002", match_score := some 150
    personalized_reason := none, key_benefits_for_user := none }

/-- A candidate entry carrying an in-range match score of 87. -/
def midScoreEntry : RecEntry :=
  { product_id := some "prod_002", match_score := some 87
    personalized_reason := none, key_benefits_for_user := none }

/-- A generator payload whose single candidate passes the id checks
against a subset holding `prod_002`. -/
def acceptedEntryData : RecommendationsData :=
  { recommendations := some [entryFor "prod_002"]
    general_skincare_tips := none
    routine_advice := RawField.missing
    ingredients_guidance := RawField.missing }

/-- A generator payload whose single candidate is `negScoreEntry`. -/
def negScoreData : RecommendationsData :=
  { recommendations := some [negScoreEntry]
    general_skincare_tips := none
    routine_advice := RawField.missing
    ingredients_guidance := RawField.missing }

/-- A generator payload proposing only `prod_001`, a catalog product that
is not in the offered subset of the run it is used in. -/
def halluData : RecommendationsData :=
  { recommendations := some [entryFor "prod_001"]
    general_skincare_tips := none
    routine_advice := RawField.missing
    ingredients_guidance := RawField.missing }

/-- A face cream with the given id, suiting oily/acne analyses. -/
def simpleCream (pid : String) : Product :=
  { id := pid, name := "Cream"
    suitable_skin_types := ["oily"], targets_concerns := ["acne"] }

/-- A generator payload of four candidates: the first three lack a product
id, the valid candidate sits at position 4. -/
def fourEntryData : RecommendationsData :=
  { recommendations :=
      some [noIdEntry, noIdEntry, noIdEntry, entryFor "p3"]
    general_skincare_tips := none
    routine_advice := RawField.missing
    ingredients_guidance := RawField.missing }

/-- A service whose single provider succeeds with the oily/acne payload. -/
def okSvc : LLMService :=
  { providers := [("openai", Except.ok oilyPayload)]
    primary_provider := "openai" }

/-- A service whose every provider fails. -/
def failAllSvc : LLMService :=
  { providers := [("openai", Except.error "boom"),
                  ("custom", Except.error "bust")]
    primary_provider := "openai" }

/-- A service whose primary provider fails and whose fallback succeeds. -/
def fallbackSvc : LLMService :=
  { providers := [("openai", Except.error "OpenAI API error"),
                  ("custom", Except.ok oilyPayload)]
    primary_provider := "openai" }

/-! ## C3 -/

/-- C3: `analyze_skin` invokes the primary provider first and returns its
result when it succeeds; when the primary fails, every other configured
provider is tried sequentially in dict order (skipping the primary) and
the returned result is exactly the standalone result of the first provider
that succeeds; when every configured provider fails, the whole operation
fails with the single aggregate error and no partial analysis is
returned. -/
theorem analyze_skin_failover (svc : LLMService) :
    (∀ d, find_provider svc svc.primary_provider = some (Except.ok d) →
       analyze_skin svc = Except.ok d) ∧
    (∀ m d, find_provider svc svc.primary_provider = some (Except.error m) →
       (svc.providers.filter
           (fun p => !(p.1 == svc.primary_provider))).findSome?
         (fun p => outcome_ok p.2) = some d →
       analyze_skin svc = Except.ok d) ∧
    ((∀ p ∈ svc.providers, outcome_ok p.2 = none) →
       analyze_skin svc = Except.error allFailedMsg) := by
  refine ⟨?_, ?_, ?_⟩
  · intro d h
    unfold analyze_skin
    rw [h]
  · intro m d h hfb
    unfold analyze_skin
    rw [h, first_fallback_success_eq, hfb]
  · intro hall
    have hfb : first_fallback_success svc.primary_provider svc.providers
        = none := by
      rw [first_fallback_success_eq]
      refine List.findSome?_eq_none_iff.mpr ?_
      intro p hp
      exact hall p (List.mem_of_mem_filter hp)
    unfold analyze_skin
    cases hf : find_provider svc svc.primary_provider with
    | none => rfl
    | some res =>
        cases res with
        | error m => rw [hfb]
        | ok d =>
            exfalso
            unfold find_provider at hf
            obtain ⟨q, hq, hq2⟩ := Option.map_eq_some'.mp hf
            have hnone := hall q (List.mem_of_find?_eq_some hq)
            rw [hq2] at hnone
            exact absurd hnone (by simp [outcome_ok])

/-- Witness for C3: with the primary failing, the fallback's standalone
result is returned. -/
theorem analyze_skin_failover_witness :
    analyze_skin fallbackSvc = Except.ok oilyPayload :=
  (analyze_skin_failover fallbackSvc).2.1 "OpenAI API error" oilyPayload
    (by rfl) (by rfl)

/-! ## C7 -/

/-- `find?` by name succeeds exactly when a pair carrying that name is in
the list. -/
theorem find_name_isSome (l : List (String × ProviderOutcome))
    (name : String) :
    (l.find? (fun p => p.1 == name)).isSome = true ↔ ∃ r, (name, r) ∈ l := by
  rw [List.find?_isSome]
  constructor
  · rintro ⟨⟨a, b⟩, hmem, hp⟩
    have ha : a = name := by simpa using hp
    subst ha
    exact ⟨b, hmem⟩
  · rintro ⟨r, hmem⟩
    exact ⟨(name, r), hmem, by simp⟩

/-- C7: constructing the LLM service with zero available providers raises
the configuration error at construction time; a successfully constructed
service holds the non-empty provider dict (so the error can never arise
per-request), its primary provider is the configured primary name when
that provider was initialized, and otherwise the first configured provider
in dict iteration order. -/
theorem llm_init_spec (s : Settings) (env : ProviderEnv) :
    (LLMService.init s env = Except.error InitError.noProviders ↔
       init_providers s env = []) ∧
    (∀ svc, LLMService.init s env = Except.ok svc →
       svc.providers = init_providers s env ∧
       svc.providers ≠ [] ∧
       ((∃ r, (s.primary_llm_provider, r) ∈ svc.providers) →
          svc.primary_provider = s.primary_llm_provider) ∧
       ((¬ ∃ r, (s.primary_llm_provider, r) ∈ svc.providers) →
          some svc.primary_provider =
            svc.providers.head?.map (fun p => p.1))) := by
  constructor
  · constructor
    · intro h
      unfold LLMService.init at h
      split at h
      next hemp => exact List.isEmpty_iff.mp hemp
      next => cases h
    · intro h
      unfold LLMService.init
      simp [h]
  · intro svc h
    unfold LLMService.init at h
    split at h
    next => cases h
    next hemp =>
      cases Except.ok.inj h
      refine ⟨rfl, fun hnil => hemp (List.isEmpty_iff.mpr hnil), ?_, ?_⟩
      · rintro ⟨r, hmem⟩
        show (if ((init_providers s env).find?
            (fun p => p.1 == s.primary_llm_provider)).isSome = true
          then s.primary_llm_provider
          else ((init_providers s env).head?.map (fun p => p.1)).getD "")
          = s.primary_llm_provider
        rw [if_pos ((find_name_isSome _ _).mpr ⟨r, hmem⟩)]
      · intro hno
        show some (if ((init_providers s env).find?
            (fun p => p.1 == s.primary_llm_provider)).isSome = true
          then s.primary_llm_provider
          else ((init_providers s env).head?.map (fun p => p.1)).getD "")
          = (init_providers s env).head?.map (fun p => p.1)
        rw [if_neg (fun hs => hno ((find_name_isSome _ _).mp hs))]
        cases hl : init_providers s env with
        | nil => exact absurd (by simp [hl]) hemp
        | cons q rest => simp

/-- A configuration where only the custom provider is available while the
configured primary name is `"openai"`. -/
def customOnlySettings : Settings :=
  { openai_api_key := none, custom_llm_api_key := some "key"
    primary_llm_provider := "openai" }

/-- A construction environment where both guarded constructors succeed. -/
def bothOkEnv : ProviderEnv :=
  { openai_init_ok := true, custom_init_ok := true
    openai_outcome := Except.error "unused"
    custom_outcome := Except.ok oilyPayload }

/-- The service `customOnlySettings` constructs. -/
def customOnlySvc : LLMService :=
  { providers := [("custom", Except.ok oilyPayload)]
    primary_provider := "custom" }

/-- Witness for C7: with only the custom provider configured, construction
succeeds and the primary falls back to the first configured provider. -/
theorem llm_init_spec_witness :
    LLMService.init customOnlySettings bothOkEnv = Except.ok customOnlySvc ∧
    some customOnlySvc.primary_provider =
      customOnlySvc.providers.head?.map (fun p => p.1) :=
  ⟨by rfl,
   ((llm_init_spec customOnlySettings bothOkEnv).2 customOnlySvc
       (by rfl)).2.2.2
     (by
       rintro ⟨r, hmem⟩
       simp only [customOnlySvc, List.mem_singleton, Prod.mk.injEq] at hmem
       exact absurd hmem.1 (by decide))⟩

/-- On a non-empty catalog the filter raises at the first product's
`p.category` read. -/
theorem filtered_cons_error (sa : SkinAnalysis) (p : Product)
    (ps : List Product) :
    get_filtered_products sa (p :: ps) =
      Except.error PyError.attributeError := rfl

/-! ## C1 -/

/-- C1 (code bug): the referential-integrity pass of `_build_response` is
wired, but its accepted entries never reach a response.  At the failing
input — a candidate referencing `prod_002` of the offered subset — the id
checks accept the entry (its identifier maps to the offered product), and
the `ProductRecommendation(...)` construction then raises
`ValidationError` (the required `match_breakdown` and `justification` are
never passed), so the build fails and no `RecommendationResponse`
containing a recommendation is ever produced. -/
theorem referential_integrity_unreachable :
    id_checks_pass [clearBalanceCream] (entryFor "prod_002") = true ∧
    product_map [clearBalanceCream] "prod_002" = some clearBalanceCream ∧
    build_response oilyAcneAnalysis acceptedEntryData [clearBalanceCream]
        sinkOff =
      (Except.error BuildError.validationError, sinkOff) :=
  ⟨by decide, by decide, by rfl⟩

/-! ## C2 -/

/-- Counterexample to C2: the request whose catalog does not suit the
analysis (the spec's "no suitable products" scenario) and the request
whose providers are all exhausted surface as literally the same
service-unavailable error — the first because `_get_filtered_products`
raises `AttributeError` into the blanket handler, the second via the
aggregate provider failure.  The caller cannot tell the conditions
apart. -/
theorem no_result_conditions_counterexample :
    (get_recommendations failAllSvc (Except.ok halluData) [hydraGlowCream]
        sinkOff (some [255]) none none).result =
      Except.error OrchError.serviceUnavailable ∧
    (get_recommendations okSvc (Except.ok halluData) [hydraGlowCream]
        sinkOff (some [255]) none none).result =
      Except.error OrchError.serviceUnavailable :=
  ⟨by rfl, by rfl⟩

/-- C2 (amended): the three no-result conditions are not distinguished —
every request that reaches the catalog filter with a non-empty catalog
fails with the same generic service-unavailable error as provider
exhaustion (the filter's `AttributeError` falls into the blanket handler
before an empty subset could arise), and zero recommendations surviving
reconciliation, exercised on `_build_response` directly, yields a plain
successful response with an empty recommendation list rather than a
distinct error. -/
theorem no_result_conditions_collapsed (llm : LLMService)
    (catalog : List Product) (sink : Sink) (i : Option (List Nat))
    (u : Option String) (c : Option (List String))
    (hin : (truthyBytes i || truthyOptStr u || truthyList c) = true) :
    (∀ (ad : AnalysisData) (sa : SkinAnalysis),
       analyze_skin_step llm i u = Except.ok ad →
       parse_skin_analysis ad = some sa →
       catalog ≠ [] →
       ∀ gen, (get_recommendations llm gen catalog sink i u c).result =
         Except.error OrchError.serviceUnavailable) ∧
    (∀ m, analyze_skin_step llm i u = Except.error m →
       ∀ gen, (get_recommendations llm gen catalog sink i u c).result =
         Except.error OrchError.serviceUnavailable) ∧
    (∀ (sa : SkinAnalysis) (data : RecommendationsData) (ps : List Product)
       (s2 : Sink) (ra : RoutineAdvice) (ig : IngredientsGuidance),
       RawField.parse ⟨[], [], []⟩ data.routine_advice = some ra →
       RawField.parse ⟨[], []⟩ data.ingredients_guidance = some ig →
       build_loop ps ((data.recommendations.getD []).take 3) =
         Except.ok [] →
       build_response sa data ps s2 =
         (Except.ok
           { skin_analysis := sa
             recommendations := []
             routine_advice := ra
             ingredients_guidance := ig }, s2)) := by
  refine ⟨?_, ?_, ?_⟩
  · intro ad sa had hsa hcat gen
    unfold get_recommendations
    rw [if_neg (by simp [hin])]
    cases catalog with
    | nil => exact absurd rfl hcat
    | cons p rest => simp only [had, hsa, filtered_cons_error]
  · intro m hm gen
    unfold get_recommendations
    rw [if_neg (by simp [hin])]
    simp only [hm]
  · intro sa data ps s2 ra ig hra hig hloop
    unfold build_response
    simp only [hloop, hra, hig]

/-- Witness for the amended C2: a reconciliation that drops its only
candidate (the offered subset is empty) yields a successful response with
zero recommendations. -/
theorem no_result_conditions_collapsed_witness :
    build_response oilyAcneAnalysis halluData [] sinkOff =
      (Except.ok
        { skin_analysis := oilyAcneAnalysis
          recommendations := []
          routine_advice := { morning := [], evening := [], weekly := [] }
          ingredients_guidance := { beneficial := [], avoid := [] } },
       sinkOff) :=
  (no_result_conditions_collapsed okSvc [] sinkOff (some [255]) none none
      (by decide)).2.2 oilyAcneAnalysis halluData [] sinkOff
    ⟨[], [], []⟩ ⟨[], []⟩ rfl rfl (by rfl)

/-! ## C4 -/

/-- C4 (code bug): `_build_response` computes the clamped score
`min(max(rec.get("match_score", 0), 0), 100)` as the constructor argument
— -10 becomes 0, 150 becomes 100, 87 is unchanged — but the
`ProductRecommendation(...)` call it feeds then raises `ValidationError`
(required `match_breakdown` and `justification` never passed), so no
clamped match score ever reaches a final response. -/
theorem match_score_clamp_unreachable :
    clamped_score negScoreEntry = 0 ∧
    clamped_score highScoreEntry = 100 ∧
    clamped_score midScoreEntry = 87 ∧
    build_response oilyAcneAnalysis negScoreData [clearBalanceCream]
        sinkOn =
      (Except.error BuildError.validationError, sinkOn) :=
  ⟨by decide, by decide, by decide, by rfl⟩

/-! ## C5 -/

/-- Counterexample to C5: a request with both image inputs absent but a
non-empty `user_concerns` list passes the input check, so it does not fail
with the input-validation error; it fails later (with the invalid-data
error from `SkinAnalysis` validation), still having made zero provider
calls. -/
theorem input_error_counterexample :
    (get_recommendations okSvc (Except.ok halluData) [hydraGlowCream] sinkOff
        none none (some ["acne"])).result =
      Except.error OrchError.invalidData ∧
    (get_recommendations okSvc (Except.ok halluData) [hydraGlowCream] sinkOff
        none none (some ["acne"])).llm_calls = 0 :=
  ⟨by rfl, by rfl⟩

/-- C5 (amended): for every input in which image bytes, image URL and user
concerns are all absent (falsy), the operation fails with the input
validation error before any LLM provider is invoked — the number of LLM
calls made is zero. -/
theorem input_error_before_providers (llm : LLMService)
    (gen : Except String RecommendationsData) (catalog : List Product)
    (sink : Sink) (i : Option (List Nat)) (u : Option String)
    (c : Option (List String)) (hi : truthyBytes i = false)
    (hu : truthyOptStr u = false) (hc : truthyList c = false) :
    (get_recommendations llm gen catalog sink i u c).result =
      Except.error (OrchError.inputError inputErrorMsg) ∧
    (get_recommendations llm gen catalog sink i u c).llm_calls = 0 := by
  unfold get_recommendations
  rw [if_pos (by simp [hi, hu, hc])]
  exact ⟨rfl, rfl⟩

/-- Witness for the amended C5 at the fully-absent input. -/
theorem input_error_before_providers_witness :
    (get_recommendations okSvc (Except.ok halluData) [hydraGlowCream] sinkOff
        none none none).result =
      Except.error (OrchError.inputError inputErrorMsg) ∧
    (get_recommendations okSvc (Except.ok halluData) [hydraGlowCream] sinkOff
        none none none).llm_calls = 0 :=
  input_error_before_providers okSvc (Except.ok halluData) [hydraGlowCream]
    sinkOff none none none rfl rfl rfl

/-! ## C6 -/

/-- C6 (code bug): on every non-empty catalog `_get_filtered_products`
raises `AttributeError` at the `p.category` read instead of returning the
matching subset; in particular, for oily skin with the acne concern and
the two-product catalog of the claim, the spec-level filter returns
exactly the matching product while the code raises. -/
theorem catalog_filter_raises :
    (∀ (sa : SkinAnalysis) (p : Product) (ps : List Product),
       get_filtered_products sa (p :: ps) =
         Except.error PyError.attributeError) ∧
    spec_filtered_products "oily" ["acne"] [specClearBalance, specHydraGlow]
      = [specClearBalance] ∧
    get_filtered_products oilyAcneAnalysis
        [clearBalanceCream, hydraGlowCream] =
      Except.error PyError.attributeError :=
  ⟨fun sa p ps => rfl, by decide, by rfl⟩

/-! ## C8 -/

/-- The outcome of the orchestrated request (though not the sink state it
returns) is independent of the incoming analytics sink. -/
theorem get_recommendations_result_congr (llm : LLMService)
    (gen : Except String RecommendationsData) (catalog : List Product)
    (s1 s2 : Sink) (i : Option (List Nat)) (u : Option String)
    (c : Option (List String)) :
    (get_recommendations llm gen catalog s1 i u c).result =
    (get_recommendations llm gen catalog s2 i u c).result := by
  unfold get_recommendations
  split_ifs
  · rfl
  · cases analyze_skin_step llm i u with
    | error m => rfl
    | ok ad =>
        dsimp only
        cases parse_skin_analysis ad with
        | none => rfl
        | some sa =>
            dsimp only
            cases get_filtered_products sa catalog with
            | error e => rfl
            | ok fc =>
                dsimp only
                cases gen with
                | error m => rfl
                | ok d =>
                    dsimp only
                    have hfst := build_response_fst_congr sa d fc s1 s2
                    rcases hb1 : build_response sa d fc s1 with ⟨r1, k1⟩
                    rcases hb2 : build_response sa d fc s2 with ⟨r2, k2⟩
                    rw [hb1, hb2] at hfst
                    dsimp only at hfst
                    subst hfst
                    cases r1 <;> rfl

/-- C8: analytics failures never surface to the caller of the
recommendation flow — the request outcome does not depend on the sink at
all, a write against a missing client is a no-op, a `RedisError` on the
increment is caught and leaves the counters unchanged, and an analytics
read after a failed connection (or whose own read fails) returns the empty
result without error. -/
theorem analytics_failures_never_surface :
    (∀ (llm : LLMService) (gen : Except String RecommendationsData)
       (catalog : List Product) (s1 s2 : Sink) (i : Option (List Nat))
       (u : Option String) (c : Option (List String)),
       (get_recommendations llm gen catalog s1 i u c).result =
       (get_recommendations llm gen catalog s2 i u c).result) ∧
    (∀ (sink : Sink) (pid : String), sink.connected = false →
       track_recommendation sink pid = sink) ∧
    (∀ (sink : Sink) (pid : String), sink.increment_fails = true →
       track_recommendation sink pid = sink) ∧
    (∀ (catalog : List Product) (ra : Bool) (url : Option String) (rf : Bool),
       get_analytics catalog (init_redis ra url false) rf =
         { product_stats := [], daily_stats := [] }) ∧
    (∀ (catalog : List Product) (sink : Sink),
       get_analytics catalog sink true =
         { product_stats := [], daily_stats := [] }) := by
  refine ⟨get_recommendations_result_congr, ?_, ?_, ?_, ?_⟩
  · intro sink pid h
    simp [track_recommendation, h]
  · intro sink pid h
    cases hc : sink.connected <;> simp [track_recommendation, h, hc]
  · intro catalog ra url rf
    simp [get_analytics, init_redis]
  · intro catalog sink
    cases hc : sink.connected <;> simp [get_analytics, hc]

/-- Witness for C8: a write against the disconnected sink is a no-op, and
an analytics read after a failed startup connection is empty. -/
theorem analytics_failures_never_surface_witness :
    track_recommendation sinkOff "prod_002" = sinkOff ∧
    get_analytics [clearBalanceCream]
        (init_redis true (some "redis://localhost") false) false =
      { product_stats := [], daily_stats := [] } :=
  ⟨analytics_failures_never_surface.2.1 sinkOff "prod_002" rfl,
   analytics_failures_never_surface.2.2.2.1 [clearBalanceCream] true
     (some "redis://localhost") false⟩

/-! ## C9 -/

/-- C9: reconciliation truncates the candidate list to its first 3 entries
before the per-entry processing — the outcome of `_build_response` depends
only on the first 3 candidates — and on `fourEntryData` (first three
candidates without a product id, the only valid candidate at position 4)
the build succeeds with zero recommendations: fewer than the one valid
entry the LLM proposed, the position-4 candidate never included. -/
theorem truncation_precedes_validation :
    (∀ (sa : SkinAnalysis) (data : RecommendationsData) (ps : List Product)
       (sink : Sink),
       build_response sa data ps sink =
         build_response sa
           { data with
             recommendations := some ((data.recommendations.getD []).take 3) }
           ps sink) ∧
    ((fourEntryData.recommendations.getD []).filter
        (fun e => id_checks_pass [simpleCream "p3"] e)).length = 1 ∧
    build_response oilyAcneAnalysis fourEntryData [simpleCream "p3"]
        sinkOff =
      (Except.ok
        { skin_analysis := oilyAcneAnalysis
          recommendations := []
          routine_advice := { morning := [], evening := [], weekly := [] }
          ingredients_guidance := { beneficial := [], avoid := [] } },
       sinkOff) := by
  refine ⟨?_, by decide, by rfl⟩
  intro sa data ps sink
  obtain ⟨recs, tips, ra, ig⟩ := data
  unfold build_response
  dsimp only
  rw [Option.getD_some, List.take_take, Nat.min_self]

/-! ## C10 -/

/-- Counterexample to C10: at a run whose single candidate passes the id
checks against the offered subset and whose build then fails, the
connected sink comes back with its counters untouched — no increment ever
happened, contradicting the claim that accepted entries' counters are
incremented before the failed construction. -/
theorem tracking_counterexample :
    build_response oilyAcneAnalysis acceptedEntryData [clearBalanceCream]
        sinkOn =
      (Except.error BuildError.validationError, sinkOn) ∧
    sinkOn.product_counts = [] ∧ sinkOn.daily_count = 0 :=
  ⟨by rfl, rfl, rfl⟩

/-- C10 (amended): the `_track_recommendation` call sits after the
`ProductRecommendation(...)` construction inside the loop, and that
construction raises `ValidationError` for every entry passing the id
checks, so reconciliation never increments any analytics counter:
`_build_response` returns the sink unchanged on every input, failed builds
included. -/
theorem tracking_never_happens :
    ∀ (sa : SkinAnalysis) (data : RecommendationsData) (ps : List Product)
      (sink : Sink), (build_response sa data ps sink).2 = sink := by
  intro sa data ps sink
  unfold build_response
  cases build_loop ps ((data.recommendations.getD []).take 3) with
  | error e => rfl
  | ok recs =>
      dsimp only
      cases RawField.parse ⟨[], [], []⟩ data.routine_advice <;>
        cases RawField.parse ⟨[], []⟩ data.ingredients_guidance <;> rfl

end Skincare
